import Mathlib

/-!
# Redis component constants

A shallow embedding of `install/installer/pkg/components/redis/constants.go`
(package `redis`) and the properties its specification states about it.

The Go file is one `const ( ... )` block of untyped string and integer
constants.  String constants are embedded as `String`, the two untyped integer
constants as `Int` (the default type of an untyped integer constant is `int`).
-/

namespace Redis

/-! ## The constant block, in source order -/

/-- Go: `Component = "redis"`. -/
def Component : String := "redis"

/-- Go: `PortName = "api"`. -/
def PortName : String := "api"

/-- Go: `Port = 6379`. -/
def Port : Int := 6379

/-- Go: `RegistryRepo = "cgr.dev"`. -/
def RegistryRepo : String := "cgr.dev"

/-- Go: `RegistryImage = "chainguard/redis"`. -/
def RegistryImage : String := "chainguard/redis"

/-- Go: `ContainerName = "redis"`. -/
def ContainerName : String := "redis"

/-- Go: `ImageDigest = "sha256:d153...4575"`. -/
def ImageDigest : String :=
  "sha256:d1531c3b943009488678e47d5bc7fe0fcdde25b1c935efd53581263367c44575"

/-- Go: `ExporterRegistryRepo = "quay.io"`. -/
def ExporterRegistryRepo : String := "quay.io"

/-- Go: `ExporterRegistryImage = "oliver006/redis_exporter"`. -/
def ExporterRegistryImage : String := "oliver006/redis_exporter"

/-- Go: `ExporterImageDigest = "sha256:a7d4...61ea"`. -/
def ExporterImageDigest : String :=
  "sha256:a7d498a48444c1b25d44d12387aa0223020d20cb106939cb7ddd6fee5de661ea"

/-- Go: `ExporterContainerName = "exporter"`. -/
def ExporterContainerName : String := "exporter"

/-- Go: `ExporterPortName = "exporter"`. -/
def ExporterPortName : String := "exporter"

/-- Go: `ExporterPort = 9500`. -/
def ExporterPort : Int := 9500

/-! ## Groupings of the constants used by the specification -/

/-- The identifier constants of the file: component name, container names and
port names. -/
def identifiers : List String :=
  [Component, ContainerName, ExporterContainerName, PortName, ExporterPortName]

/-- An image location with its pinned digest: registry host, repository,
digest. -/
structure ImageRef where
  host : String
  repository : String
  digest : String
deriving DecidableEq, Repr

/-- The main component's image triple. -/
def mainImage : ImageRef := ⟨RegistryRepo, RegistryImage, ImageDigest⟩

/-- The exporter's image triple. -/
def exporterImage : ImageRef :=
  ⟨ExporterRegistryRepo, ExporterRegistryImage, ExporterImageDigest⟩

/-- Both image triples declared by the file. -/
def images : List ImageRef := [mainImage, exporterImage]

/-- The full image reference `host/repository@digest`. -/
def imageReference (host repository digest : String) : String :=
  host ++ "/" ++ repository ++ "@" ++ digest

/-! ## Character classes and string shapes named by the specification -/

/-- Character class `[a-z0-9]`. -/
def isLowerAlnum (c : Char) : Bool :=
  ('a' ≤ c && c ≤ 'z') || ('0' ≤ c && c ≤ '9')

/-- Character class `[0-9a-f]`. -/
def isLowerHex (c : Char) : Bool :=
  ('0' ≤ c && c ≤ '9') || ('a' ≤ c && c ≤ 'f')

/-- Whitespace: space, tab, newline, carriage return. -/
def isWhitespace (c : Char) : Bool :=
  c = ' ' || c = Char.ofNat 9 || c = Char.ofNat 10 || c = Char.ofNat 13

/-- The pattern `^[a-z0-9]+:[0-9a-f]{32,}$` as a property of the whole string:
the string splits as `algo ++ ":" ++ hex` with `algo` a non-empty run of
`[a-z0-9]` and `hex` at least 32 characters of `[0-9a-f]`. -/
def MatchesDigestPattern (s : String) : Prop :=
  ∃ algo hex : List Char,
    s.data = algo ++ ':' :: hex ∧
    algo ≠ [] ∧ (∀ c ∈ algo, isLowerAlnum c = true) ∧
    32 ≤ hex.length ∧ (∀ c ∈ hex, isLowerHex c = true)

/-- An executable matcher for `^[a-z0-9]+:[0-9a-f]{32,}$`: take the longest
run of `[a-z0-9]`, require it to be non-empty and followed by `:`, and require
the remainder to be at least 32 characters, all in `[0-9a-f]`. -/
def matchesDigestPattern (s : String) : Bool :=
  let algo := s.data.takeWhile isLowerAlnum
  match s.data.dropWhile isLowerAlnum with
  | ':' :: hex => !algo.isEmpty && decide (32 ≤ hex.length) && hex.all isLowerHex
  | _ => false

/-- A well-formed SHA-256 reference: the prefix `sha256:` followed by exactly
64 characters of `[0-9a-f]`. -/
def IsSha256Reference (s : String) : Prop :=
  ∃ hex : List Char,
    s.data = "sha256:".data ++ hex ∧ hex.length = 64 ∧ ∀ c ∈ hex, isLowerHex c = true

/-- A list of image triples is unambiguous when any two entries naming the same
(host, repository) carry the same digest. -/
def Unambiguous (ds : List ImageRef) : Prop :=
  ∀ a ∈ ds, ∀ b ∈ ds, (a.host, a.repository) = (b.host, b.repository) → a.digest = b.digest

/-! ## Helper lemmas about the pattern matcher -/

/-- The separator `:` is not in the class `[a-z0-9]`. -/
theorem colon_not_lowerAlnum : isLowerAlnum ':' = false := by decide

/-- Taking the longest prefix satisfying `p` of `xs ++ y :: ys`, where all of
`xs` satisfies `p` and `y` does not, gives back `xs`. -/
theorem takeWhile_append_stop {p : Char → Bool} (xs : List Char) (y : Char) (ys : List Char)
    (hxs : ∀ c ∈ xs, p c = true) (hy : p y = false) :
    (xs ++ y :: ys).takeWhile p = xs := by
  induction xs with
  | nil => simp [List.takeWhile, hy]
  | cons x xs ih =>
    have hx : p x = true := hxs x (List.mem_cons_self _ _)
    have hrest : ∀ c ∈ xs, p c = true := fun c hc => hxs c (List.mem_cons_of_mem _ hc)
    simp [List.takeWhile, hx, ih hrest]

/-- Dropping the longest prefix satisfying `p` of `xs ++ y :: ys`, where all of
`xs` satisfies `p` and `y` does not, leaves `y :: ys`. -/
theorem dropWhile_append_stop {p : Char → Bool} (xs : List Char) (y : Char) (ys : List Char)
    (hxs : ∀ c ∈ xs, p c = true) (hy : p y = false) :
    (xs ++ y :: ys).dropWhile p = y :: ys := by
  induction xs with
  | nil => simp [List.dropWhile, hy]
  | cons x xs ih =>
    have hx : p x = true := hxs x (List.mem_cons_self _ _)
    have hrest : ∀ c ∈ xs, p c = true := fun c hc => hxs c (List.mem_cons_of_mem _ hc)
    simp [List.dropWhile, hx, ih hrest]

/-- Every element of the longest prefix satisfying `p` satisfies `p`. -/
theorem mem_takeWhile_sat {p : Char → Bool} (xs : List Char) :
    ∀ c ∈ xs.takeWhile p, p c = true := by
  induction xs with
  | nil => simp
  | cons x xs ih =>
    intro c hc
    by_cases hx : p x = true
    · simp only [List.takeWhile, hx, List.mem_cons] at hc
      rcases hc with rfl | hc
      · exact hx
      · exact ih c hc
    · simp [List.takeWhile, hx] at hc

/-- The executable matcher decides the pattern. -/
theorem matchesDigestPattern_iff (s : String) :
    matchesDigestPattern s = true ↔ MatchesDigestPattern s := by
  constructor
  · intro h
    unfold matchesDigestPattern at h
    have hsplit := List.takeWhile_append_dropWhile isLowerAlnum s.data
    simp only at h
    split at h
    · rename_i hex hd
      rw [hd] at hsplit
      simp only [Bool.and_eq_true, Bool.not_eq_true', decide_eq_true_eq, List.all_eq_true] at h
      obtain ⟨⟨hne, hlen⟩, hhex⟩ := h
      refine ⟨s.data.takeWhile isLowerAlnum, hex, hsplit.symm, ?_, mem_takeWhile_sat _, hlen, hhex⟩
      intro hnil
      rw [hnil] at hne
      simp at hne
    · exact absurd h (by decide)
  · rintro ⟨algo, hex, hs, hne, halgo, hlen, hhex⟩
    unfold matchesDigestPattern
    rw [hs, takeWhile_append_stop algo ':' hex halgo colon_not_lowerAlnum,
      dropWhile_append_stop algo ':' hex halgo colon_not_lowerAlnum]
    cases algo with
    | nil => exact absurd rfl hne
    | cons a as =>
      simp only [List.isEmpty_cons, Bool.not_false, Bool.true_and, Bool.and_eq_true,
        decide_eq_true_eq, List.all_eq_true]
      exact ⟨hlen, hhex⟩

/-- A well-formed SHA-256 reference matches the digest pattern. -/
theorem sha256Reference_matches (s : String) (h : IsSha256Reference s) :
    MatchesDigestPattern s := by
  obtain ⟨hex, hs, hlen, hhex⟩ := h
  refine ⟨"sha256".data, hex, ?_, by decide, by decide, by omega, hhex⟩
  rw [hs]
  rfl

/-! ## The claims -/

/-- C1: the main component's port and the exporter's port are different
numbers, 6379 versus 9500. -/
theorem port_ne_exporterPort :
    Port ≠ ExporterPort ∧ Port = 6379 ∧ ExporterPort = 9500 := by
  refine ⟨?_, rfl, rfl⟩
  decide

/-- C2: both digest constants match `^[a-z0-9]+:[0-9a-f]{32,}$` over the whole
string: a non-empty run of `[a-z0-9]`, one `:`, then at least 32 characters of
`[0-9a-f]`, and nothing else. -/
theorem digests_match_pattern :
    MatchesDigestPattern ImageDigest ∧ MatchesDigestPattern ExporterImageDigest := by
  constructor
  · exact (matchesDigestPattern_iff ImageDigest).mp (by decide)
  · exact (matchesDigestPattern_iff ExporterImageDigest).mp (by decide)

/-- C3: the main component's (registry host, repository, digest) triple is
exactly the one the specification lists. -/
theorem main_image_triple :
    (RegistryRepo, RegistryImage, ImageDigest) =
      ("cgr.dev", "chainguard/redis",
        "sha256:d1531c3b943009488678e47d5bc7fe0fcdde25b1c935efd53581263367c44575") := by
  rfl

/-- C4: assembling host, `/`, repository, `@`, digest for the main component
yields the full image reference of the specification. -/
theorem main_image_reference :
    RegistryRepo ++ "/" ++ RegistryImage ++ "@" ++ ImageDigest =
        "cgr.dev/chainguard/redis@sha256:d1531c3b943009488678e47d5bc7fe0fcdde25b1c935efd53581263367c44575" ∧
      imageReference RegistryRepo RegistryImage ImageDigest =
        "cgr.dev/chainguard/redis@sha256:d1531c3b943009488678e47d5bc7fe0fcdde25b1c935efd53581263367c44575" := by
  constructor <;> decide

/-- C5: the exporter's (port name, port) pair is (`exporter`, 9500) and the
exporter's container name is `exporter` as well. -/
theorem exporter_port_pair :
    (ExporterPortName, ExporterPort) = ("exporter", 9500) ∧
      ExporterContainerName = "exporter" := by
  exact ⟨rfl, rfl⟩

/-- C6: every identifier constant (component name, container names, port
names) is a non-empty string with no whitespace character. -/
theorem identifiers_nonempty_no_whitespace (s : String) (hs : s ∈ identifiers) :
    s ≠ "" ∧ s.length ≠ 0 ∧ ∀ c ∈ s.data, isWhitespace c = false := by
  simp only [identifiers, List.mem_cons, List.mem_singleton, List.not_mem_nil, or_false] at hs
  rcases hs with rfl | rfl | rfl | rfl | rfl <;> decide

/-- C6, at the component name. -/
theorem identifiers_nonempty_no_whitespace_witness :
    Component ∈ identifiers ∧
      (Component ≠ "" ∧ Component.length ≠ 0 ∧ ∀ c ∈ Component.data, isWhitespace c = false) :=
  ⟨by decide, identifiers_nonempty_no_whitespace Component (by decide)⟩

/-- C7: both port constants lie in the valid port range 1..65535. -/
theorem ports_in_range :
    (1 ≤ Port ∧ Port ≤ 65535) ∧ (1 ≤ ExporterPort ∧ ExporterPort ≤ 65535) := by
  decide

/-- C8: the remaining values of the external-interface table: component name,
container name, primary port name and number, exporter registry host and
repository. -/
theorem interface_table_values :
    Component = "redis" ∧ ContainerName = "redis" ∧ (PortName, Port) = ("api", 6379) ∧
      (ExporterRegistryRepo, ExporterRegistryImage) = ("quay.io", "oliver006/redis_exporter") := by
  exact ⟨rfl, rfl, rfl, rfl⟩

/-- C9: the two descriptors never name the same image location with different
digests; here the implication holds because the two (host, repository) pairs
differ, and the list of both image triples is unambiguous. -/
theorem images_unambiguous :
    ((RegistryRepo, RegistryImage) = (ExporterRegistryRepo, ExporterRegistryImage) →
        ImageDigest = ExporterImageDigest) ∧
      (RegistryRepo, RegistryImage) ≠ (ExporterRegistryRepo, ExporterRegistryImage) ∧
      Unambiguous images := by
  have hne : (RegistryRepo, RegistryImage) ≠ (ExporterRegistryRepo, ExporterRegistryImage) := by
    decide
  refine ⟨fun h => absurd h hne, hne, ?_⟩
  intro a ha b hb hab
  simp only [images, List.mem_cons, List.mem_singleton, List.not_mem_nil, or_false] at ha hb
  rcases ha with rfl | rfl <;> rcases hb with rfl | rfl
  · rfl
  · exact absurd hab hne
  · exact absurd hab.symm hne
  · rfl

/-- C10: both digest constants are well-formed SHA-256 references (length 71,
prefix `sha256:`, then exactly 64 characters of `[0-9a-f]`), which implies the
digest pattern, and the two digests are different strings. -/
theorem digests_sha256 :
    (ImageDigest.length = 71 ∧ IsSha256Reference ImageDigest) ∧
      (ExporterImageDigest.length = 71 ∧ IsSha256Reference ExporterImageDigest) ∧
      ImageDigest ≠ ExporterImageDigest ∧
      (∀ s : String, IsSha256Reference s → MatchesDigestPattern s) := by
  refine ⟨⟨by decide, ?_⟩, ⟨by decide, ?_⟩, by decide, sha256Reference_matches⟩
  · exact ⟨ImageDigest.data.drop 7, by decide, by decide, by decide⟩
  · exact ⟨ExporterImageDigest.data.drop 7, by decide, by decide, by decide⟩

end Redis
